import Mathlib

/-!
Shallow embedding of the ticket classification-and-coordination pipeline of
the Auto-resolve-Service-Desk repository:

* src/agents/triage-agent/azure_integration.py
  (classify_ticket, _build_classification_prompt is prompt text only,
   _parse_classification_response, _fallback_classification)
* src/agents/knowledge-agent/azure_integration.py
  (search_knowledge, _build_search_query, _extract_key_terms, _fallback_search)
* src/shared/service_bus_coordinator.py
  (coordinate_ticket_processing, _process_with_agent)

Python dictionaries are modelled as Lean structures whose fields follow the
key insertion order of the corresponding dict literal; keys that are present
only on some return paths are Option fields.  Machine floats that the code
only ever sets to exact decimal literals (durations, confidences, relevance
scores) are modelled as rationals.  External collaborators (the OpenAI
completion backend, json.loads, the search backend, the agent stubs) are
parameters of the functions that call them; an exception raised by a
collaborator is an Except.error value.  Wall-clock timestamps
(start_time / end_time) and measured processing times are real time and are
modelled as parameters or omitted where no claim mentions them.
-/

/-- Python `s.lower()` over the ASCII range, the only characters the
pipeline handles. -/
def strLower (s : String) : String := String.mk (s.data.map Char.toLower)

/-- Substring test: Python membership test `needle in haystack`. -/
def containsSub (needle haystack : String) : Bool :=
  haystack.data.tails.any (fun t => needle.data.isPrefixOf t)

/-- Python `s.find(c)`: index of the first occurrence of `c`, -1 if absent. -/
def pyFind (c : Char) (s : List Char) : Int :=
  match s.findIdx? (fun x => x == c) with
  | some i => (i : Int)
  | none => -1

/-- Python `s.rfind(c)`: index of the last occurrence of `c`, -1 if absent. -/
def pyRfind (c : Char) (s : List Char) : Int :=
  match s.reverse.findIdx? (fun x => x == c) with
  | some i => ((s.length - 1 - i : Nat) : Int)
  | none => -1

/-- Input ticket dict.  The demo tickets carry id, title, description and
optionally category, priority and expectedAgent (the latter is read only by
the mock agent stub in the coordinator). -/
structure Ticket where
  id : String
  title : String
  description : String
  category : Option String
  priority : Option String
  expectedAgent : Option String
deriving DecidableEq, Repr

/-- Result of json.loads on the extracted span: the classification dict the
backend was asked to produce; every field may be missing. -/
structure ParsedClassification where
  agent : Option String
  category : Option String
  priority : Option String
  confidence : Option ℚ
  resolution_time : Option String
  reasoning : Option String
deriving DecidableEq, Repr

/-- response.usage of the completion call. -/
structure TokenUsage where
  prompt_tokens : Nat
  completion_tokens : Nat
  total_tokens : Nat
deriving DecidableEq, Repr

/-- Outcome of the completion backend call inside classify_ticket: either the
raw text content of the first choice together with usage numbers, or a raised
exception (its message). -/
inductive BackendResult where
  | success (content : String) (usage : TokenUsage)
  | failure (err : String)
deriving DecidableEq, Repr

/-- Return dict of classify_ticket and _fallback_classification.  Fields in
primary-path insertion order; confidence, priority,
estimated_resolution_time and token_usage are keys the fallback dict does
not contain, hence Option. -/
structure ClassifyRecord where
  ticket_id : String
  classification : ParsedClassification
  confidence : Option ℚ
  assigned_agent : String
  priority : Option String
  estimated_resolution_time : Option String
  processing_time : ℚ
  azure_service : String
  token_usage : Option TokenUsage
deriving DecidableEq, Repr

/-- Keys present in a ClassifyRecord, in dict insertion order. -/
def classifyRecordKeys (r : ClassifyRecord) : List String :=
  ["ticket_id", "classification"]
    ++ (if r.confidence.isSome then ["confidence"] else [])
    ++ ["assigned_agent"]
    ++ (if r.priority.isSome then ["priority"] else [])
    ++ (if r.estimated_resolution_time.isSome then ["estimated_resolution_time"] else [])
    ++ ["processing_time", "azure_service"]
    ++ (if r.token_usage.isSome then ["token_usage"] else [])

/-- The span `response[start:end]` with start = response.find('\x7b') and
end = response.rfind('\x7d') + 1, returned when `start >= 0 and end > start`
(lines 114-121 of the triage integration). -/
def extractJsonSpan (response : String) : Option String :=
  let s := response.data
  let start := pyFind '{' s
  let stop := pyRfind '}' s + 1
  if 0 ≤ start ∧ start < stop then
    some (String.mk ((s.drop start.toNat).take (stop - start).toNat))
  else none

/-- The dict returned by _parse_classification_response when no JSON is found
or json.loads raises (lines 124-131). -/
def defaultParsedClassification : ParsedClassification :=
  { agent := some "Escalation"
    category := some "Unknown"
    priority := some "Medium"
    confidence := some (8/10)
    resolution_time := some "120s"
    reasoning := some "Fallback classification due to parsing error" }

/-- _parse_classification_response: extract the find/rfind span and run
json.loads (the parameter jsonLoads, none when it raises); any failure is
caught and yields defaultParsedClassification. -/
def parseClassificationResponse
    (jsonLoads : String → Option ParsedClassification) (response : String) :
    ParsedClassification :=
  match extractJsonSpan response with
  | some jsonStr => (jsonLoads jsonStr).getD defaultParsedClassification
  | none => defaultParsedClassification

/-- Lower-cased title concatenated with lower-cased description, as built by
_fallback_classification (title_lower + desc_lower). -/
def titleDesc (t : Ticket) : String :=
  strLower t.title ++ strLower t.description

def kw_knowledge : List String := ["how", "guide", "documentation", "configure"]

def kw_automation : List String := ["deploy", "automation", "workflow", "pipeline"]

def kw_escalation : List String := ["security", "vulnerability", "critical", "urgent"]

def kw_analytics : List String := ["report", "analytics", "dashboard", "metrics"]

/-- _fallback_classification (lines 133-168): keyword rules over
title_lower + desc_lower pick the agent and resolution_time, then one dict
is returned.  processing_time is the literal "1.2s". -/
def fallback_classification (ticket : Ticket) : ClassifyRecord :=
  let combined := titleDesc ticket
  let agentRt : String × String :=
    if kw_knowledge.any (fun w => containsSub w combined) then ("Knowledge", "30s")
    else if kw_automation.any (fun w => containsSub w combined) then ("Automation", "60s")
    else if kw_escalation.any (fun w => containsSub w combined) then ("Escalation", "90s")
    else if kw_analytics.any (fun w => containsSub w combined) then ("Analytics", "45s")
    else ("Escalation", "120s")
  { ticket_id := ticket.id
    classification :=
      { agent := some agentRt.1
        category := some (ticket.category.getD "General")
        priority := some (ticket.priority.getD "Medium")
        confidence := some (85/100)
        resolution_time := some agentRt.2
        reasoning := some "Fallback rule-based classification" }
    confidence := none
    assigned_agent := agentRt.1
    priority := none
    estimated_resolution_time := none
    processing_time := 12/10
    azure_service := "Fallback (Local Rules)"
    token_usage := none }

/-- classify_ticket (lines 41-82): on backend success parse the content and
build the primary dict (model is the configured model name, processing_time
the measured wall clock); any raised exception is caught and delegated to
_fallback_classification. -/
def classify_ticket (jsonLoads : String → Option ParsedClassification)
    (model : String) (backend : BackendResult) (ticket : Ticket)
    (processing_time : ℚ) : ClassifyRecord :=
  match backend with
  | .failure _ => fallback_classification ticket
  | .success content usage =>
    let classification := parseClassificationResponse jsonLoads content
    { ticket_id := ticket.id
      classification := classification
      confidence := some (classification.confidence.getD (95/100))
      assigned_agent := classification.agent.getD "Escalation"
      priority := some (classification.priority.getD (ticket.priority.getD "Medium"))
      estimated_resolution_time := some (classification.resolution_time.getD "120s")
      processing_time := processing_time
      azure_service := "Azure OpenAI " ++ model
      token_usage := some usage }

/-- Concrete ticket of Scenario A. -/
def demoTicket : Ticket :=
  { id := "TICKET-001"
    title := "How do I configure SSL?"
    description := "need documentation for certificate setup"
    category := none
    priority := none
    expectedAgent := none }

/-- A deployment ticket matching only the automation keyword set. -/
def demoTicketB : Ticket :=
  { id := "TICKET-002"
    title := "Stuck rollout"
    description := "the deploy workflow is stuck"
    category := none
    priority := none
    expectedAgent := none }

/-- A parsed classification dict with every field missing. -/
def emptyParsed : ParsedClassification :=
  { agent := none, category := none, priority := none, confidence := none
    resolution_time := none, reasoning := none }

/-- One hit returned by the search backend; every key is read with .get, so
every field may be missing ("@search.score" defaults to 0.0). -/
structure SearchResult where
  id : Option String
  title : Option String
  content : Option String
  category : Option String
  score : Option ℚ
deriving DecidableEq, Repr

/-- One entry of the knowledge_items list built from a backend hit
(lines 69-76 of the knowledge integration). -/
structure KnowledgeItem where
  id : Option String
  title : Option String
  content : Option String
  category : Option String
  relevance_score : ℚ
deriving DecidableEq, Repr

/-- A canned article of the mock knowledge base used by _fallback_search. -/
structure MockArticle where
  title : String
  content : String
  category : String
deriving DecidableEq, Repr

/-- The best_match value is a backend item on the primary path and a canned
article on the fallback path. -/
inductive BestMatchPayload where
  | item (k : KnowledgeItem)
  | article (a : MockArticle)
deriving DecidableEq, Repr

/-- Return dict of search_knowledge and _fallback_search.  all_results is a
key only the primary dict contains, hence Option. -/
structure KnowledgeRecord where
  ticket_id : String
  search_query : String
  results_found : Nat
  best_match : Option BestMatchPayload
  all_results : Option (List KnowledgeItem)
  relevance_score : ℚ
  processing_time : ℚ
  azure_service : String
deriving DecidableEq, Repr

/-- Fixed vocabulary of _extract_key_terms (lines 111-115). -/
def technical_terms : List String :=
  ["ssl", "https", "certificate", "deployment", "configuration",
   "database", "api", "authentication", "caching", "redis",
   "performance", "timeout", "error", "security", "vulnerability"]

/-- _extract_key_terms: vocabulary terms that are substrings of the
lower-cased text, in vocabulary order, limited to the first 5. -/
def extract_key_terms (text : String) : List String :=
  (technical_terms.filter (fun term => containsSub term (strLower text))).take 5

/-- _build_search_query: title followed by the extracted key terms, joined
with single spaces. -/
def build_search_query (ticket : Ticket) : String :=
  String.intercalate " " (ticket.title :: extract_key_terms ticket.description)

/-- Static mapping of _fallback_search (lines 124-140), in insertion order. -/
def mock_knowledge : List (String × MockArticle) :=
  [("ssl",
    { title := "SSL Certificate Configuration Guide"
      content := "Step-by-step guide for configuring SSL certificates with Azure Key Vault integration..."
      category := "Security" }),
   ("deployment",
    { title := "Deployment Troubleshooting Guide"
      content := "Common deployment issues and solutions for Azure Container Apps..."
      category := "Technical" }),
   ("database",
    { title := "Database Performance Optimization"
      content := "Best practices for optimizing database connections and query performance..."
      category := "Performance" })]

/-- _fallback_search (lines 121-167): first mock entry whose key occurs in
title_lower + desc_lower, else the General Support article; fixed relevance
0.85, one result, query = title. -/
def fallback_search (ticket : Ticket) : KnowledgeRecord :=
  let best :=
    (mock_knowledge.find? (fun kv => containsSub kv.1 (titleDesc ticket))).map
      (fun kv => kv.2)
  let best_match :=
    best.getD
      { title := "General Support Guide"
        content := "General troubleshooting steps and support resources..."
        category := "General" }
  { ticket_id := ticket.id
    search_query := ticket.title
    results_found := 1
    best_match := some (.article best_match)
    all_results := none
    relevance_score := 85/100
    processing_time := 8/10
    azure_service := "Fallback (Local)" }

/-- search_knowledge (lines 52-94): the backend parameter is the outcome of
the Azure AI Search call issued with build_search_query (a raised exception
is Except.error); on success the hits become knowledge_items, best_match is
the first item or none, and the primary dict is returned; any exception is
caught and delegated to _fallback_search. -/
def search_knowledge (backend : Except String (List SearchResult))
    (ticket : Ticket) : KnowledgeRecord :=
  match backend with
  | .error _ => fallback_search ticket
  | .ok results =>
    let query := build_search_query ticket
    let knowledge_items := results.map (fun r =>
      ({ id := r.id, title := r.title, content := r.content,
         category := r.category, relevance_score := r.score.getD 0 } : KnowledgeItem))
    let best_match := knowledge_items.head?
    { ticket_id := ticket.id
      search_query := query
      results_found := knowledge_items.length
      best_match := best_match.map .item
      all_results := some knowledge_items
      relevance_score :=
        match best_match with
        | some b => b.relevance_score
        | none => 0
      processing_time := 18/10
      azure_service := "AI Search Semantic" }

/-- Agent step result dict as read by the coordinator: of all the keys the
mock responses carry, the coordinator reads only assigned_agent (triage) and
processing_time; the remaining keys are never inspected and are elided. -/
structure AgentResult where
  assigned_agent : Option String
  processing_time : Option ℚ
deriving DecidableEq, Repr

/-- One entry of processing_log["steps"] (agent, duration, result). -/
structure Step where
  agent : String
  duration : ℚ
  result : AgentResult
deriving DecidableEq, Repr

/-- processing_log dict of coordinate_ticket_processing.  Durations and
total_time are rationals standing for the "Xs" strings; start_time and
end_time are wall-clock timestamps and are omitted (no claim reads them). -/
structure ProcessingLog where
  ticket_id : String
  steps : List Step
  total_time : ℚ
  status : String
  error : Option String
deriving DecidableEq, Repr

/-- Data passed to _process_with_agent: the ticket, plus the in-progress
processing_log that the analytics call receives merged into its data dict. -/
structure AgentInput where
  ticket : Ticket
  processing_log : Option ProcessingLog
deriving Repr

/-- The if/elif chain of lines 121-132: dispatch on the lower-cased assigned
agent, unknown values going to escalation. -/
def routed_call (pa : String → AgentInput → Except String AgentResult)
    (ticket : Ticket) (assigned_agent : String) : Except String AgentResult :=
  if assigned_agent = "knowledge" then pa "knowledge" ⟨ticket, none⟩
  else if assigned_agent = "automation" then pa "automation" ⟨ticket, none⟩
  else if assigned_agent = "escalation" then pa "escalation" ⟨ticket, none⟩
  else if assigned_agent = "learning" then pa "learning" ⟨ticket, none⟩
  else if assigned_agent = "analytics" then pa "analytics" ⟨ticket, none⟩
  else pa "escalation" ⟨ticket, none⟩

/-- coordinate_ticket_processing (lines 99-168), parametric in the agent
processor pa (_process_with_agent, which may raise).  The try block appends
the triage step (fixed duration 2.3), the routed step (duration from the
result, default 60), and the analytics step (fixed duration 0.5), then sets
total_time to the sum of the recorded durations and status to completed.
A raised exception is caught by the except clause, which stamps status
failed and the exception text onto the log as mutated so far and returns
it. -/
def coordinate_ticket_processing
    (pa : String → AgentInput → Except String AgentResult)
    (ticket : Ticket) : ProcessingLog :=
  let log0 : ProcessingLog :=
    { ticket_id := ticket.id, steps := [], total_time := 0,
      status := "processing", error := none }
  match pa "triage" ⟨ticket, none⟩ with
  | .error e => { log0 with status := "failed", error := some e }
  | .ok triage_result =>
    let steps1 := [({ agent := "triage", duration := 23/10, result := triage_result } : Step)]
    let assigned_agent := strLower (triage_result.assigned_agent.getD "escalation")
    match routed_call pa ticket assigned_agent with
    | .error e => { log0 with steps := steps1, status := "failed", error := some e }
    | .ok agent_result =>
      let steps2 := steps1 ++
        [({ agent := assigned_agent,
            duration := agent_result.processing_time.getD 60,
            result := agent_result } : Step)]
      let log2 := { log0 with steps := steps2 }
      match pa "analytics" ⟨ticket, some log2⟩ with
      | .error e => { log2 with status := "failed", error := some e }
      | .ok analytics_result =>
        let steps3 := steps2 ++
          [({ agent := "analytics", duration := 1/2, result := analytics_result } : Step)]
        let total_seconds := (steps3.map Step.duration).sum
        { log2 with steps := steps3, total_time := total_seconds,
                    status := "completed" }

/-- _process_with_agent (lines 170-213): the mock responses, restricted to
the keys the coordinator reads; durations are the literal processing_time
strings of the mock dicts; unknown agent names get the default dict with
processing_time 1.0; the mock never raises. -/
def mock_process_with_agent (agent_name : String) (input : AgentInput) :
    Except String AgentResult :=
  .ok
    (if agent_name = "triage" then
      { assigned_agent := some (input.ticket.expectedAgent.getD "Escalation")
        processing_time := some (23/10) }
    else if agent_name = "knowledge" then
      { assigned_agent := none, processing_time := some (18/10) }
    else if agent_name = "automation" then
      { assigned_agent := none, processing_time := some (32/10) }
    else if agent_name = "escalation" then
      { assigned_agent := none, processing_time := some (15/10) }
    else if agent_name = "learning" then
      { assigned_agent := none, processing_time := some (41/10) }
    else if agent_name = "analytics" then
      { assigned_agent := none, processing_time := some (8/10) }
    else { assigned_agent := none, processing_time := some 1 })

/-- An agent processor whose automation stub raises mid-call while triage
routes the ticket to automation; all other agents succeed. -/
def demoFailingAgent (agent_name : String) (input : AgentInput) :
    Except String AgentResult :=
  if agent_name = "automation" then .error "Automation workflow crashed"
  else if agent_name = "triage" then
    .ok { assigned_agent := some "Automation", processing_time := some (23/10) }
  else mock_process_with_agent agent_name input

/-- Ticket whose description contains none of the fixed vocabulary terms. -/
def demoTicketPlain : Ticket :=
  { id := "TICKET-003"
    title := "Printer offline"
    description := "the office printer is not responding"
    category := none
    priority := none
    expectedAgent := none }

/-- The assigned agent of the fallback classification, written as the bare
keyword if-chain. -/
theorem fallback_assigned_agent (t : Ticket) :
    (fallback_classification t).assigned_agent =
      (if kw_knowledge.any (fun w => containsSub w (titleDesc t)) then "Knowledge"
       else if kw_automation.any (fun w => containsSub w (titleDesc t)) then "Automation"
       else if kw_escalation.any (fun w => containsSub w (titleDesc t)) then "Escalation"
       else if kw_analytics.any (fun w => containsSub w (titleDesc t)) then "Analytics"
       else "Escalation") := by
  unfold fallback_classification
  dsimp only
  split_ifs <;> rfl

/-- The fallback classifier only ever assigns one of four agents. -/
theorem fallback_agent_eq (t : Ticket) :
    (fallback_classification t).assigned_agent = "Knowledge" ∨
    (fallback_classification t).assigned_agent = "Automation" ∨
    (fallback_classification t).assigned_agent = "Escalation" ∨
    (fallback_classification t).assigned_agent = "Analytics" := by
  rw [fallback_assigned_agent]
  split_ifs <;> simp

/-- When json.loads fails on the extracted span, or no span exists, the
parse step yields the built-in default classification. -/
theorem parse_failure_default (jsonLoads : String → Option ParsedClassification)
    (content : String) (h : (extractJsonSpan content).bind jsonLoads = none) :
    parseClassificationResponse jsonLoads content = defaultParsedClassification := by
  unfold parseClassificationResponse
  cases hE : extractJsonSpan content with
  | none => rfl
  | some js =>
    rw [hE] at h
    simp only [Option.some_bind] at h
    simp [h]

/-- C3: the claim says a backend response with no parseable JSON is treated
identically to a backend failure, delegating to the rule fallback with
source=Fallback.  Refuted: on the concrete unparseable response the result
carries the primary Azure OpenAI service tag and a token_usage key, while
the rule-fallback record carries the fallback tag and no token_usage key. -/
theorem classifier_malformed_response_claim_refuted :
    extractJsonSpan "Sorry, I cannot help." = none ∧
    (classify_ticket (fun _ => none) "gpt-4"
      (.success "Sorry, I cannot help." ⟨10, 5, 15⟩) demoTicket (21/10)).azure_service =
      "Azure OpenAI gpt-4" ∧
    (classify_ticket (fun _ => none) "gpt-4"
      (.success "Sorry, I cannot help." ⟨10, 5, 15⟩) demoTicket (21/10)).token_usage.isSome =
      true ∧
    (fallback_classification demoTicket).azure_service = "Fallback (Local Rules)" ∧
    (fallback_classification demoTicket).token_usage.isSome = false :=
  ⟨by decide, by decide, rfl, rfl, rfl⟩

/-- C3 amended: when the backend call succeeds but its response contains no
parseable JSON (no find/rfind span, or json.loads raises on it), the parse
step substitutes the built-in default classification (agent Escalation,
confidence 0.8) and classify_ticket returns it through the primary path,
tagged with the Azure OpenAI service string and token usage; it does not
delegate to the rule-based fallback. -/
theorem classifier_malformed_response_primary_default
    (jsonLoads : String → Option ParsedClassification) (model content : String)
    (usage : TokenUsage) (t : Ticket) (pt : ℚ)
    (h : (extractJsonSpan content).bind jsonLoads = none) :
    (classify_ticket jsonLoads model (.success content usage) t pt).classification =
      defaultParsedClassification ∧
    (classify_ticket jsonLoads model (.success content usage) t pt).assigned_agent =
      "Escalation" ∧
    (classify_ticket jsonLoads model (.success content usage) t pt).confidence =
      some (8/10) ∧
    (classify_ticket jsonLoads model (.success content usage) t pt).azure_service =
      "Azure OpenAI " ++ model ∧
    (classify_ticket jsonLoads model (.success content usage) t pt).token_usage =
      some usage ∧
    classify_ticket jsonLoads model (.success content usage) t pt ≠
      fallback_classification t := by
  have hp := parse_failure_default jsonLoads content h
  refine ⟨?_, ?_, ?_, rfl, rfl, ?_⟩
  · simp [classify_ticket, hp]
  · simp [classify_ticket, hp, defaultParsedClassification]
  · simp [classify_ticket, hp, defaultParsedClassification]
  · intro hEq
    have hu := congrArg ClassifyRecord.token_usage hEq
    have hf : (fallback_classification t).token_usage = none := rfl
    rw [hf] at hu
    simp [classify_ticket] at hu

/-- Witness for the amended C3 at a concrete unparseable response. -/
theorem classifier_malformed_response_primary_default_witness :
    (classify_ticket (fun _ => none) "gpt-4"
      (.success "Sorry, I cannot help." ⟨10, 5, 15⟩) demoTicket (21/10)).assigned_agent =
      "Escalation" ∧
    (classify_ticket (fun _ => none) "gpt-4"
      (.success "Sorry, I cannot help." ⟨10, 5, 15⟩) demoTicket (21/10)).confidence =
      some (8/10) := by
  have h := classifier_malformed_response_primary_default (fun _ => none) "gpt-4"
    "Sorry, I cannot help." ⟨10, 5, 15⟩ demoTicket (21/10) (by decide)
  exact ⟨h.2.1, h.2.2.1⟩

/-- When the span extraction and json.loads both succeed, the parse step
returns exactly the loaded dict. -/
theorem parse_success_value (jsonLoads : String → Option ParsedClassification)
    (content js : String) (c : ParsedClassification)
    (h1 : extractJsonSpan content = some js) (h2 : jsonLoads js = some c) :
    parseClassificationResponse jsonLoads content = c := by
  unfold parseClassificationResponse
  rw [h1]
  simp [h2]

/-- C4: the claim says a successfully parsed JSON object missing the agent
or confidence field gets agent defaulted to Escalation and confidence
defaulted to 0.8.  Refuted: on an empty parsed object the top-level
confidence defaults to 0.95, not 0.8 (0.8 < 0.95). -/
theorem classifier_missing_confidence_claim_refuted :
    extractJsonSpan "\x7b\x7d" = some "\x7b\x7d" ∧
    (classify_ticket (fun _ => some emptyParsed) "gpt-4"
      (.success "\x7b\x7d" ⟨1, 1, 2⟩) demoTicket 1).assigned_agent = "Escalation" ∧
    (classify_ticket (fun _ => some emptyParsed) "gpt-4"
      (.success "\x7b\x7d" ⟨1, 1, 2⟩) demoTicket 1).confidence = some (95/100) ∧
    (8 : ℚ)/10 < 95/100 :=
  ⟨by decide, rfl, rfl, by norm_num⟩

/-- C4 amended: when the backend call succeeds and the extracted span parses,
a missing agent field defaults to Escalation and a missing confidence field
defaults to 0.95 (not 0.8; the 0.8 confidence arises only when parsing fails
entirely and the whole default classification is substituted), and the
result is tagged with the primary Azure OpenAI service string. -/
theorem classifier_missing_field_defaults
    (jsonLoads : String → Option ParsedClassification) (model content js : String)
    (usage : TokenUsage) (t : Ticket) (pt : ℚ) (c : ParsedClassification)
    (h1 : extractJsonSpan content = some js) (h2 : jsonLoads js = some c) :
    (classify_ticket jsonLoads model (.success content usage) t pt).classification = c ∧
    (c.agent = none →
      (classify_ticket jsonLoads model (.success content usage) t pt).assigned_agent =
        "Escalation") ∧
    (c.confidence = none →
      (classify_ticket jsonLoads model (.success content usage) t pt).confidence =
        some (95/100)) ∧
    (classify_ticket jsonLoads model (.success content usage) t pt).azure_service =
      "Azure OpenAI " ++ model ∧
    (classify_ticket jsonLoads model (.success content usage) t pt).token_usage =
      some usage := by
  have hp := parse_success_value jsonLoads content js c h1 h2
  refine ⟨by simp [classify_ticket, hp], ?_, ?_, rfl, rfl⟩
  · intro ha
    simp [classify_ticket, hp, ha]
  · intro hc
    simp [classify_ticket, hp, hc]

/-- Witness for the amended C4 at a concrete parsed-but-empty object. -/
theorem classifier_missing_field_defaults_witness :
    (classify_ticket (fun _ => some emptyParsed) "gpt-4"
      (.success "\x7b\x7d" ⟨1, 1, 2⟩) demoTicket 1).assigned_agent = "Escalation" ∧
    (classify_ticket (fun _ => some emptyParsed) "gpt-4"
      (.success "\x7b\x7d" ⟨1, 1, 2⟩) demoTicket 1).confidence = some (95/100) := by
  have h := classifier_missing_field_defaults (fun _ => some emptyParsed) "gpt-4"
    "\x7b\x7d" "\x7b\x7d" ⟨1, 1, 2⟩ demoTicket 1 emptyParsed (by decide) rfl
  exact ⟨h.2.1 rfl, h.2.2.1 rfl⟩

/-- C6: whenever the completion backend raises, classify_ticket returns the
rule-based fallback record, tagged with the fallback service string, and
its assigned agent is one of the five enum values and never empty. -/
theorem classifier_backend_failure_fallback
    (jsonLoads : String → Option ParsedClassification) (model e : String)
    (t : Ticket) (pt : ℚ) :
    classify_ticket jsonLoads model (.failure e) t pt = fallback_classification t ∧
    (classify_ticket jsonLoads model (.failure e) t pt).azure_service =
      "Fallback (Local Rules)" ∧
    (classify_ticket jsonLoads model (.failure e) t pt).assigned_agent ∈
      ["Knowledge", "Automation", "Escalation", "Learning", "Analytics"] ∧
    (classify_ticket jsonLoads model (.failure e) t pt).assigned_agent ≠ "" := by
  refine ⟨rfl, rfl, ?_, ?_⟩
  · have h : (classify_ticket jsonLoads model (.failure e) t pt).assigned_agent =
      (fallback_classification t).assigned_agent := rfl
    rw [h]
    rcases fallback_agent_eq t with h2 | h2 | h2 | h2 <;> rw [h2] <;> decide
  · have h : (classify_ticket jsonLoads model (.failure e) t pt).assigned_agent =
      (fallback_classification t).assigned_agent := rfl
    rw [h]
    rcases fallback_agent_eq t with h2 | h2 | h2 | h2 <;> rw [h2] <;> decide

/-- Witness for C6 at a concrete raised exception. -/
theorem classifier_backend_failure_fallback_witness :
    (classify_ticket (fun _ => none) "gpt-4" (.failure "connection timed out")
      demoTicket 1).assigned_agent ∈
      ["Knowledge", "Automation", "Escalation", "Learning", "Analytics"] :=
  (classifier_backend_failure_fallback (fun _ => none) "gpt-4"
    "connection timed out" demoTicket 1).2.2.1

/-- C7: the fallback scans title+description case-insensitively against the
four keyword sets in fixed priority order, the first matching set winning,
with confidence fixed at 0.85; Scenario A assigns Knowledge at 0.85. -/
theorem triage_fallback_keyword_policy :
    (∀ t : Ticket,
      (fallback_classification t).classification.confidence = some (85/100) ∧
      ((∃ w ∈ kw_knowledge, containsSub w (titleDesc t) = true) →
        (fallback_classification t).assigned_agent = "Knowledge") ∧
      ((¬ ∃ w ∈ kw_knowledge, containsSub w (titleDesc t) = true) →
        (∃ w ∈ kw_automation, containsSub w (titleDesc t) = true) →
        (fallback_classification t).assigned_agent = "Automation") ∧
      ((¬ ∃ w ∈ kw_knowledge, containsSub w (titleDesc t) = true) →
        (¬ ∃ w ∈ kw_automation, containsSub w (titleDesc t) = true) →
        (∃ w ∈ kw_escalation, containsSub w (titleDesc t) = true) →
        (fallback_classification t).assigned_agent = "Escalation") ∧
      ((¬ ∃ w ∈ kw_knowledge, containsSub w (titleDesc t) = true) →
        (¬ ∃ w ∈ kw_automation, containsSub w (titleDesc t) = true) →
        (¬ ∃ w ∈ kw_escalation, containsSub w (titleDesc t) = true) →
        (∃ w ∈ kw_analytics, containsSub w (titleDesc t) = true) →
        (fallback_classification t).assigned_agent = "Analytics") ∧
      ((¬ ∃ w ∈ kw_knowledge, containsSub w (titleDesc t) = true) →
        (¬ ∃ w ∈ kw_automation, containsSub w (titleDesc t) = true) →
        (¬ ∃ w ∈ kw_escalation, containsSub w (titleDesc t) = true) →
        (¬ ∃ w ∈ kw_analytics, containsSub w (titleDesc t) = true) →
        (fallback_classification t).assigned_agent = "Escalation")) ∧
    (fallback_classification demoTicket).assigned_agent = "Knowledge" ∧
    (fallback_classification demoTicket).classification.confidence = some (85/100) := by
  refine ⟨fun t => ?_, by decide, rfl⟩
  have hb : ∀ l : List String, (¬ ∃ w ∈ l, containsSub w (titleDesc t) = true) →
      l.any (fun w => containsSub w (titleDesc t)) = false :=
    fun l h => Bool.eq_false_iff.mpr (fun hh => h (List.any_eq_true.mp hh))
  have ht : ∀ l : List String, (∃ w ∈ l, containsSub w (titleDesc t) = true) →
      l.any (fun w => containsSub w (titleDesc t)) = true :=
    fun l h => List.any_eq_true.mpr h
  refine ⟨rfl, ?_, ?_, ?_, ?_, ?_⟩
  · intro h1
    simp [fallback_assigned_agent, ht _ h1]
  · intro h1 h2
    simp [fallback_assigned_agent, hb _ h1, ht _ h2]
  · intro h1 h2 h3
    simp [fallback_assigned_agent, hb _ h1, hb _ h2, ht _ h3]
  · intro h1 h2 h3 h4
    simp [fallback_assigned_agent, hb _ h1, hb _ h2, hb _ h3, ht _ h4]
  · intro h1 h2 h3 h4
    simp [fallback_assigned_agent, hb _ h1, hb _ h2, hb _ h3, hb _ h4]

/-- Witness for C7: a ticket matching no Knowledge keyword and the deploy
keyword goes to Automation. -/
theorem triage_fallback_keyword_policy_witness :
    (fallback_classification demoTicketB).assigned_agent = "Automation" :=
  (triage_fallback_keyword_policy.1 demoTicketB).2.2.1 (by decide) (by decide)

/-- C9: the fallback record has exactly the keys ticket_id, classification,
assigned_agent, processing_time, azure_service, omitting the top-level
confidence, priority, estimated_resolution_time and token_usage keys that
every primary record carries. -/
theorem classifier_record_shapes
    (jsonLoads : String → Option ParsedClassification) (model e content : String)
    (usage : TokenUsage) (t : Ticket) (pt pt2 : ℚ) :
    classifyRecordKeys (classify_ticket jsonLoads model (.failure e) t pt) =
      ["ticket_id", "classification", "assigned_agent", "processing_time",
       "azure_service"] ∧
    classifyRecordKeys (classify_ticket jsonLoads model (.success content usage) t pt2) =
      ["ticket_id", "classification", "confidence", "assigned_agent", "priority",
       "estimated_resolution_time", "processing_time", "azure_service",
       "token_usage"] ∧
    (classify_ticket jsonLoads model (.failure e) t pt).confidence = none ∧
    (classify_ticket jsonLoads model (.failure e) t pt).priority = none ∧
    (classify_ticket jsonLoads model (.failure e) t pt).estimated_resolution_time =
      none ∧
    (classify_ticket jsonLoads model (.failure e) t pt).token_usage = none :=
  ⟨rfl, rfl, rfl, rfl, rfl, rfl⟩

/-- C10: the fallback path can only assign Knowledge, Automation, Escalation
or Analytics; the Learning agent is unreachable through it. -/
theorem fallback_never_learning (t : Ticket) :
    (fallback_classification t).assigned_agent ∈
      ["Knowledge", "Automation", "Escalation", "Analytics"] ∧
    (fallback_classification t).assigned_agent ≠ "Learning" := by
  rcases fallback_agent_eq t with h | h | h | h <;> rw [h] <;> exact ⟨by decide, by decide⟩

/-- Witness for C10 at a concrete ticket. -/
theorem fallback_never_learning_witness :
    (fallback_classification demoTicket).assigned_agent ∈
      ["Knowledge", "Automation", "Escalation", "Analytics"] :=
  (fallback_never_learning demoTicket).1

/-- C5: a search backend call that completes without raising but yields zero
matches produces the primary-tagged record with an empty match list and no
best match; the fallback is not consulted. -/
theorem knowledge_empty_results_primary (t : Ticket) :
    search_knowledge (.ok []) t =
      { ticket_id := t.id
        search_query := build_search_query t
        results_found := 0
        best_match := none
        all_results := some []
        relevance_score := 0
        processing_time := 18/10
        azure_service := "AI Search Semantic" } ∧
    (search_knowledge (.ok []) t).azure_service = "AI Search Semantic" ∧
    (fallback_search t).azure_service = "Fallback (Local)" :=
  ⟨rfl, rfl, rfl⟩

/-- C8: the query is the title joined with at most 5 vocabulary terms found
as substrings of the description, in vocabulary-list order; with no
vocabulary term in the description the query is the title alone and
retrieval proceeds on the primary path. -/
theorem knowledge_query_construction (t : Ticket) :
    (extract_key_terms t.description).length ≤ 5 ∧
    List.Sublist (extract_key_terms t.description) technical_terms ∧
    (∀ w ∈ extract_key_terms t.description,
      containsSub w (strLower t.description) = true) ∧
    build_search_query t =
      String.intercalate " " (t.title :: extract_key_terms t.description) ∧
    ((∀ w ∈ technical_terms, containsSub w (strLower t.description) = false) →
      build_search_query t = t.title ∧
      ∀ rs : List SearchResult,
        (search_knowledge (.ok rs) t).search_query = t.title ∧
        (search_knowledge (.ok rs) t).azure_service = "AI Search Semantic") := by
  refine ⟨?_, ?_, ?_, rfl, ?_⟩
  · rw [extract_key_terms, List.length_take]
    exact min_le_left _ _
  · exact (List.take_sublist _ _).trans (List.filter_sublist _)
  · intro w hw
    exact (List.mem_filter.mp (List.mem_of_mem_take hw)).2
  · intro h
    have hf : technical_terms.filter (fun term => containsSub term (strLower t.description)) = [] :=
      List.filter_eq_nil_iff.mpr (fun a ha => by rw [h a ha]; simp)
    have hq : build_search_query t = t.title := by
      rw [build_search_query, extract_key_terms, hf]
      rfl
    refine ⟨hq, fun rs => ⟨?_, rfl⟩⟩
    have : (search_knowledge (.ok rs) t).search_query = build_search_query t := rfl
    rw [this, hq]

/-- Witness for C8 at a ticket with no vocabulary terms in the description. -/
theorem knowledge_query_construction_witness :
    build_search_query demoTicketPlain = "Printer offline" ∧
    (search_knowledge (.ok []) demoTicketPlain).search_query = "Printer offline" := by
  have h := (knowledge_query_construction demoTicketPlain).2.2.2.2 (by decide)
  exact ⟨h.1, (h.2 []).1⟩

/-- Exhaustive case analysis of one coordinator run: the triage call fails,
the routed call fails, the analytics call fails, or all three succeed; in
each case the returned log is given explicitly. -/
theorem coordinate_cases
    (pa : String → AgentInput → Except String AgentResult) (t : Ticket) :
    (∃ e, pa "triage" ⟨t, none⟩ = .error e ∧
      coordinate_ticket_processing pa t =
        { ticket_id := t.id, steps := [], total_time := 0, status := "failed",
          error := some e }) ∨
    (∃ tr e, pa "triage" ⟨t, none⟩ = .ok tr ∧
      routed_call pa t (strLower (tr.assigned_agent.getD "escalation")) = .error e ∧
      coordinate_ticket_processing pa t =
        { ticket_id := t.id,
          steps := [{ agent := "triage", duration := 23/10, result := tr }],
          total_time := 0, status := "failed", error := some e }) ∨
    (∃ tr ar e, pa "triage" ⟨t, none⟩ = .ok tr ∧
      routed_call pa t (strLower (tr.assigned_agent.getD "escalation")) = .ok ar ∧
      coordinate_ticket_processing pa t =
        { ticket_id := t.id,
          steps := [{ agent := "triage", duration := 23/10, result := tr },
                    { agent := strLower (tr.assigned_agent.getD "escalation"),
                      duration := ar.processing_time.getD 60, result := ar }],
          total_time := 0, status := "failed", error := some e }) ∨
    (∃ tr ar an, pa "triage" ⟨t, none⟩ = .ok tr ∧
      routed_call pa t (strLower (tr.assigned_agent.getD "escalation")) = .ok ar ∧
      coordinate_ticket_processing pa t =
        { ticket_id := t.id,
          steps := [{ agent := "triage", duration := 23/10, result := tr },
                    { agent := strLower (tr.assigned_agent.getD "escalation"),
                      duration := ar.processing_time.getD 60, result := ar },
                    { agent := "analytics", duration := 1/2, result := an }],
          total_time := ([(23 : ℚ)/10, ar.processing_time.getD 60, 1/2]).sum,
          status := "completed", error := none }) := by
  cases hA : pa "triage" ⟨t, none⟩ with
  | error e =>
    left
    exact ⟨e, rfl, by simp [coordinate_ticket_processing, hA]⟩
  | ok tr =>
    cases hB : routed_call pa t (strLower (tr.assigned_agent.getD "escalation")) with
    | error e =>
      right; left
      exact ⟨tr, e, rfl, hB, by simp [coordinate_ticket_processing, hA, hB]⟩
    | ok ar =>
      right; right
      simp only [coordinate_ticket_processing, hA, hB]
      split
      next e heq => exact Or.inl ⟨tr, ar, e, rfl, hB, by simp⟩
      next an heq => exact Or.inr ⟨tr, ar, an, rfl, hB, by simp⟩

/-- The agents recorded in any log form a prefix of the execution order
triage, routed agent, analytics. -/
theorem coordinate_steps_order
    (pa : String → AgentInput → Except String AgentResult) (t : Ticket) :
    ∃ a rest, (coordinate_ticket_processing pa t).steps.map Step.agent ++ rest =
      ["triage", a, "analytics"] := by
  rcases coordinate_cases pa t with
    ⟨e, _, h⟩ | ⟨tr, e, _, _, h⟩ | ⟨tr, ar, e, _, _, h⟩ | ⟨tr, ar, an, _, _, h⟩
  · exact ⟨"escalation", ["triage", "escalation", "analytics"], by rw [h]; rfl⟩
  · exact ⟨"escalation", ["escalation", "analytics"], by rw [h]; rfl⟩
  · exact ⟨strLower (tr.assigned_agent.getD "escalation"), ["analytics"], by rw [h]; rfl⟩
  · exact ⟨strLower (tr.assigned_agent.getD "escalation"), [], by rw [h]; rfl⟩

/-- C1: the claim says a routed agent step that raises mid-call yields a
Failed StepRecord, a Failed log with non-empty error, a still-appended
analytics step, and the full triage, routed-agent, analytics order in every
log.  Refuted: on a concrete run whose automation stub raises, the returned
log holds only the triage step — no record for the failed routed step and
no analytics step were appended. -/
theorem coordinator_routed_failure_claim_refuted :
    demoFailingAgent "automation" ⟨demoTicket, none⟩ =
      .error "Automation workflow crashed" ∧
    (coordinate_ticket_processing demoFailingAgent demoTicket).status = "failed" ∧
    (coordinate_ticket_processing demoFailingAgent demoTicket).steps.map Step.agent =
      ["triage"] ∧
    (coordinate_ticket_processing demoFailingAgent demoTicket).steps.length = 1 ∧
    (((coordinate_ticket_processing demoFailingAgent demoTicket).steps.map
        Step.agent).contains "analytics") = false :=
  ⟨rfl, by decide, by decide, by decide, by decide⟩

/-- C1 amended: when the routed agent call raises, the except clause catches
the exception, stamps status failed and the exception text onto the log,
and returns it holding only the triage step — no record for the failed step
and no analytics step are appended; in every run the recorded agents form a
prefix of the execution order triage, routed agent, analytics. -/
theorem coordinator_routed_failure_aborts
    (pa : String → AgentInput → Except String AgentResult) (t : Ticket)
    (tr : AgentResult) (e : String)
    (h1 : pa "triage" ⟨t, none⟩ = .ok tr)
    (h2 : routed_call pa t (strLower (tr.assigned_agent.getD "escalation")) =
      .error e) :
    (coordinate_ticket_processing pa t).status = "failed" ∧
    (coordinate_ticket_processing pa t).error = some e ∧
    (coordinate_ticket_processing pa t).steps.map Step.agent = ["triage"] ∧
    ∀ (pa2 : String → AgentInput → Except String AgentResult) (t2 : Ticket),
      ∃ a rest,
        (coordinate_ticket_processing pa2 t2).steps.map Step.agent ++ rest =
          ["triage", a, "analytics"] := by
  have hl : coordinate_ticket_processing pa t =
      { ticket_id := t.id,
        steps := [{ agent := "triage", duration := 23/10, result := tr }],
        total_time := 0, status := "failed", error := some e } := by
    rcases coordinate_cases pa t with
      ⟨e0, hA, h⟩ | ⟨tr0, e0, hA, hB, h⟩ | ⟨tr0, ar0, e0, hA, hB, h⟩ |
      ⟨tr0, ar0, an0, hA, hB, h⟩
    · rw [h1] at hA
      exact Except.noConfusion hA
    · rw [h1] at hA
      injection hA with hA2
      subst hA2
      rw [h2] at hB
      injection hB with hB2
      subst hB2
      exact h
    · rw [h1] at hA
      injection hA with hA2
      subst hA2
      rw [h2] at hB
      exact Except.noConfusion hB
    · rw [h1] at hA
      injection hA with hA2
      subst hA2
      rw [h2] at hB
      exact Except.noConfusion hB
  rw [hl]
  exact ⟨rfl, rfl, rfl, fun pa2 t2 => coordinate_steps_order pa2 t2⟩

/-- Witness for the amended C1 at a concrete run whose automation stub
raises. -/
theorem coordinator_routed_failure_aborts_witness :
    (coordinate_ticket_processing demoFailingAgent demoTicket).status = "failed" ∧
    (coordinate_ticket_processing demoFailingAgent demoTicket).error =
      some "Automation workflow crashed" ∧
    (coordinate_ticket_processing demoFailingAgent demoTicket).steps.map Step.agent =
      ["triage"] := by
  have h := coordinator_routed_failure_aborts demoFailingAgent demoTicket
    { assigned_agent := some "Automation", processing_time := some (23/10) }
    "Automation workflow crashed" rfl rfl
  exact ⟨h.1, h.2.1, h.2.2.1⟩

/-- C2 amended: a completed log's total_time equals the exact sum of its
step durations, but a failed log keeps total_time at its initial 0
whatever steps it already holds. -/
theorem coordinator_total_time_by_status
    (pa : String → AgentInput → Except String AgentResult) (t : Ticket) :
    ((coordinate_ticket_processing pa t).status = "completed" ∧
      (coordinate_ticket_processing pa t).total_time =
        ((coordinate_ticket_processing pa t).steps.map Step.duration).sum) ∨
    ((coordinate_ticket_processing pa t).status = "failed" ∧
      (coordinate_ticket_processing pa t).total_time = 0) := by
  rcases coordinate_cases pa t with
    ⟨e, _, h⟩ | ⟨tr, e, _, _, h⟩ | ⟨tr, ar, e, _, _, h⟩ | ⟨tr, ar, an, _, _, h⟩
  · right; rw [h]; exact ⟨rfl, rfl⟩
  · right; rw [h]; exact ⟨rfl, rfl⟩
  · right; rw [h]; exact ⟨rfl, rfl⟩
  · left; rw [h]; exact ⟨rfl, rfl⟩

/-- C2: the claim says total duration equals the sum of step durations for
Failed logs too.  Refuted: the concrete failed run records a triage step of
duration 2.3 while total_time stays 0, strictly below the sum. -/
theorem coordinator_total_time_claim_refuted :
    (coordinate_ticket_processing demoFailingAgent demoTicket).status = "failed" ∧
    (coordinate_ticket_processing demoFailingAgent demoTicket).total_time = 0 ∧
    ((coordinate_ticket_processing demoFailingAgent demoTicket).steps.map
        Step.duration).sum = 23/10 ∧
    (coordinate_ticket_processing demoFailingAgent demoTicket).total_time <
      ((coordinate_ticket_processing demoFailingAgent demoTicket).steps.map
        Step.duration).sum := by
  have hl : (coordinate_ticket_processing demoFailingAgent demoTicket).steps.map
      Step.duration = [23/10] := rfl
  have h0 : (coordinate_ticket_processing demoFailingAgent demoTicket).total_time =
      0 := rfl
  refine ⟨by decide, h0, ?_, ?_⟩
  · rw [hl]; simp
  · rw [hl, h0]; norm_num
